import Mathlib

/-!
Shallow embedding of the ai-coach application (src/main.py, src/coach.py,
src/stt.py, src/tts.py) and proofs about its conversation loop, reply
engine, transcription and speech synthesis components.

External effects (console, file system, subprocesses, audio) are modelled
as an explicit event trace; the outcomes of external calls (recording,
recognition backend, chat backend, synthesis subprocess) are supplied by
an environment record, so every definition is executable.
-/

namespace AICoach

/-! ### Python string semantics used by the source
`pyStrip` embeds `str.strip()`, `pyLower` embeds `str.lower()` (the
source only lowercases ASCII keywords), `pyJoin` embeds `sep.join(...)`. -/

def pyStrip (s : String) : String :=
  ⟨((s.data.dropWhile Char.isWhitespace).reverse.dropWhile Char.isWhitespace).reverse⟩

def pyLower (s : String) : String :=
  ⟨s.data.map Char.toLower⟩

def pyJoin (sep : String) : List String → String
  | [] => ""
  | [x] => x
  | x :: xs => x ++ sep ++ pyJoin sep xs

/-! ### Error taxonomy
The Python code raises built-in exception classes; the spec names them
DeviceError, TranscriptionError, GenerationError, MissingAssetError
(FileNotFoundError in tts.py `__init__`) and SynthesisError (RuntimeError
in `TextToSpeech.speak`). `subprocessOsError` stands for an exception
raised by the `subprocess.run` invocation itself. -/

inductive AppErr where
  | deviceError (msg : String)
  | transcriptionError (msg : String)
  | generationError (msg : String)
  | missingAsset (msg : String)
  | synthesisError (returncode : Int) (stderr : String)
  | subprocessOsError
deriving DecidableEq

instance {ε α : Type} [DecidableEq ε] [DecidableEq α] :
    DecidableEq (Except ε α) := fun a b =>
  match a, b with
  | .error x, .error y =>
    if h : x = y then isTrue (congrArg Except.error h)
    else isFalse fun hc => h (Except.error.inj hc)
  | .error _, .ok _ => isFalse fun hc => Except.noConfusion hc
  | .ok _, .error _ => isFalse fun hc => Except.noConfusion hc
  | .ok x, .ok y =>
    if h : x = y then isTrue (congrArg Except.ok h)
    else isFalse fun hc => h (Except.ok.inj hc)

/-! ### Files and the event trace -/

/-- Identity of a transient file created during a turn: the recorded input
WAV (`stt.record_wav`), and the temporary text / output WAV files of the
`call`-th `TextToSpeech.speak` invocation of the turn. -/
inductive FileId where
  | recWav (path : String)
  | synthTxt (call : Nat)
  | synthWav (call : Nat)
deriving DecidableEq

/-- Observable events of one conversation turn, in program order. -/
inductive Ev where
  | recordCall
  | transcribeCall (wavPath : String)
  | replyCall (userText : String)
  | speakCall (text : String)
  | synthCall (call : Nat) (stdinText : String)
  | playCall (call : Nat)
  | createFile (f : FileId)
  | deleteFile (f : FileId)
  | printMsg (s : String)
deriving DecidableEq

/-- Number of `TextToSpeech.speak` invocations recorded in a trace. -/
def speakCalls (t : List Ev) : Nat :=
  t.countP fun e => match e with | .speakCall _ => true | _ => false

/-- Number of `CoachEngine.reply` invocations recorded in a trace. -/
def replyCalls (t : List Ev) : Nat :=
  t.countP fun e => match e with | .replyCall _ => true | _ => false

/-- A file was created during the trace and never deleted: it still
exists on disk at the end. -/
def leaked (t : List Ev) (f : FileId) : Prop :=
  Ev.createFile f ∈ t ∧ Ev.deleteFile f ∉ t

/-! ### tts.py — `TextToSpeech` -/

/-- The file-system state visible to `os.path.isfile`: the set of paths
that exist on disk. -/
def isfile (fs : List String) (p : String) : Bool :=
  fs.contains p

structure TextToSpeech where
  piper_dir : String
  exe : String
  model : String
  config : String
deriving DecidableEq

/-- `TextToSpeech.__init__`: derives the executable, voice-model and
voice-config paths from `piper_dir` and `model_name` and checks each with
`os.path.isfile`, raising FileNotFoundError (the spec's MissingAssetError)
if any is absent. -/
def ttsInit (fs : List String) (piper_dir model_name : String) :
    Except AppErr TextToSpeech :=
  let exe := piper_dir ++ "/piper.exe"
  let model := piper_dir ++ "/" ++ model_name ++ ".onnx"
  let config := piper_dir ++ "/" ++ model_name ++ ".onnx.json"
  if !(isfile fs exe) then
    .error (.missingAsset ("piper.exe non trovato in " ++ piper_dir))
  else if !(isfile fs model) then
    .error (.missingAsset ("Voce non trovata: " ++ model))
  else if !(isfile fs config) then
    .error (.missingAsset ("Voce non trovata: " ++ config))
  else
    .ok ⟨piper_dir, exe, model, config⟩

/-- Outcome of the external synthesis subprocess for one `speak` call:
either the `subprocess.run` invocation itself raises an exception, or the
process completes with an exit code and captured stderr. -/
inductive SynthStep where
  | raises
  | completed (returncode : Int) (stderr : String)
deriving DecidableEq

/-- `TextToSpeech.speak` for the `call`-th invocation of a turn.
Mirrors the source: return immediately if `not text`; write
`text.strip()` to a temporary text file; create the temporary output WAV
(NamedTemporaryFile with delete disabled, so the file exists on disk);
run the synthesis subprocess with the text file as stdin; `os.unlink` the
text file; raise RuntimeError on a non-zero exit code or a missing output
file; otherwise play the WAV and `os.remove` it. -/
def speakRun (call : Nat) (text : String) (s : SynthStep) :
    List Ev × Except AppErr Unit :=
  if text == "" then
    ([], .ok ())
  else
    let pre := [Ev.createFile (.synthTxt call), Ev.createFile (.synthWav call),
                Ev.synthCall call (pyStrip text)]
    match s with
    | .raises => (pre, .error .subprocessOsError)
    | .completed rc stderr =>
      let evs := pre ++ [Ev.deleteFile (.synthTxt call)]
      let wavOnDisk := true
      if rc ≠ 0 || !wavOnDisk then
        (evs, .error (.synthesisError rc stderr))
      else
        (evs ++ [Ev.playCall call, Ev.deleteFile (.synthWav call)], .ok ())

/-! ### coach.py — `CoachEngine` -/

structure Message where
  role : String
  content : String
deriving DecidableEq

/-- The two-element message list built by `CoachEngine.reply`. -/
def coachMessages (systemPrompt userText : String) : List Message :=
  [⟨"system", systemPrompt⟩, ⟨"user", userText⟩]

/-- `CoachEngine.reply`: sends the system and user messages to the chat
backend and returns the stripped content of the response message.
Returns the messages actually sent together with the outcome; a backend
exception propagates. -/
def coachReply (systemPrompt : String)
    (backend : List Message → Except AppErr String) (userText : String) :
    List Message × Except AppErr String :=
  let messages := coachMessages systemPrompt userText
  (messages, (backend messages).map pyStrip)

/-! ### stt.py — `SpeechToText` -/

/-- One timed text segment yielded by the recognition backend. -/
structure Segment where
  text : String
  start : Int
  stop : Int
deriving DecidableEq

/-- `SpeechToText.transcribe` applied to the finite sequence of segments
yielded by the model:
`" ".join(seg.text.strip() for seg in segments).strip()`. -/
def transcribe (segments : List Segment) : String :=
  pyStrip (pyJoin " " (segments.map fun seg => pyStrip seg.text))

/-! ### main.py — the conversation loop -/

/-- Environment of one loop iteration: the raw console line, the
configured system prompt, and the outcomes of the external calls the
iteration may make. `recordResult` is `stt.record_wav` (path of the WAV
it wrote, or a device error); `recognizeResult` is the segment sequence
yielded by the recognition model inside `stt.transcribe` (or a backend
error); `chatBackend` is `ollama.Client.chat`; `synth` gives the
synthesis-subprocess outcome of the `call`-th `tts.speak` of the turn. -/
structure TurnEnv where
  consoleLine : String
  systemPrompt : String
  recordResult : Except AppErr String
  recognizeResult : Except AppErr (List Segment)
  chatBackend : List Message → Except AppErr String
  synth : Nat → SynthStep

/-- How one loop iteration ends: `ended` via the exit keywords (`break`),
`continued` back to the input prompt, or `raised e` — an exception
propagated out of the iteration; the loop body has no try/except, so a
raised exception terminates the whole loop. -/
inductive TurnOutcome where
  | ended
  | continued
  | raised (e : AppErr)
deriving DecidableEq

/-- `user_input.lower() in ("quit", "exit")` on the already-stripped
input. -/
def isExitInput (userInput : String) : Bool :=
  pyLower userInput == "quit" || pyLower userInput == "exit"

/-- The tail of a loop iteration, after `user_input` holds either the
typed text or the transcript: skip empty input; otherwise obtain the
reply from `coach.reply`, print it, and call `tts.speak(reply)` twice —
the source contains the call twice in succession. -/
def turnReplyPhase (env : TurnEnv) (evs0 : List Ev) (userInput : String) :
    List Ev × TurnOutcome :=
  if userInput == "" then
    (evs0 ++ [Ev.printMsg "(Got empty input, try again)"], .continued)
  else
    match coachReply env.systemPrompt env.chatBackend userInput with
    | (_, .error e) => (evs0 ++ [Ev.replyCall userInput], .raised e)
    | (_, .ok reply) =>
      let evs1 := evs0 ++ [Ev.replyCall userInput, Ev.printMsg ("Coach: " ++ reply)]
      let r1 := speakRun 0 reply (env.synth 0)
      match r1.2 with
      | .error e => (evs1 ++ Ev.speakCall reply :: r1.1, .raised e)
      | .ok _ =>
        let r2 := speakRun 1 reply (env.synth 1)
        match r2.2 with
        | .error e =>
          (evs1 ++ Ev.speakCall reply :: r1.1 ++ Ev.speakCall reply :: r2.1, .raised e)
        | .ok _ =>
          (evs1 ++ Ev.speakCall reply :: r1.1 ++ Ev.speakCall reply :: r2.1, .continued)

/-- One iteration of the `while True` loop in main.py:
strip the console line; `break` on an exit keyword; on empty input record
a WAV and transcribe it (replacing `user_input` with the transcript);
then hand over to the reply phase. Any exception raised by a component
propagates out of the iteration. -/
def runTurn (env : TurnEnv) : List Ev × TurnOutcome :=
  let userInput := pyStrip env.consoleLine
  if isExitInput userInput then
    ([Ev.printMsg "Session ended."], .ended)
  else if userInput == "" then
    match env.recordResult with
    | .error e => ([Ev.recordCall], .raised e)
    | .ok wavPath =>
      match env.recognizeResult with
      | .error e =>
        ([Ev.recordCall, Ev.createFile (.recWav wavPath), Ev.transcribeCall wavPath],
         .raised e)
      | .ok segs =>
        let transcriptText := transcribe segs
        turnReplyPhase env
          [Ev.recordCall, Ev.createFile (.recWav wavPath), Ev.transcribeCall wavPath,
           Ev.printMsg ("[Transcript] " ++ transcriptText)]
          transcriptText
  else
    turnReplyPhase env [] userInput

/-- How the whole loop ends: `ended` by an exit keyword, `raised` by an
uncaught exception, `exhausted` when the supplied console input runs
out. -/
inductive LoopResult where
  | ended
  | raised (e : AppErr)
  | exhausted
deriving DecidableEq

/-- The `while True` loop of main.py over a finite supply of per-turn
environments. -/
def runLoop : List TurnEnv → List Ev × LoopResult
  | [] => ([], .exhausted)
  | env :: rest =>
    match runTurn env with
    | (evs, .ended) => (evs, .ended)
    | (evs, .raised e) => (evs, .raised e)
    | (evs, .continued) =>
      let r := runLoop rest
      (evs ++ r.1, r.2)

/-- The program after configuration loading: construct `TextToSpeech`
(which validates the synthesis assets) and only then enter the
conversation loop; a `MissingAssetError` at startup prevents any turn
from running. -/
def program (fs : List String) (piper_dir model_name : String)
    (envs : List TurnEnv) : Except AppErr (List Ev × LoopResult) :=
  match ttsInit fs piper_dir model_name with
  | .error e => .error e
  | .ok _ => .ok (runLoop envs)

/-! ### Concrete environments used to evaluate the code on specific inputs -/

/-- A normal typed turn: non-empty console text, chat backend replies,
synthesis succeeds. -/
def envC1 : TurnEnv :=
  ⟨"Mi sento bloccato", "persona", .error (.deviceError "unused"),
   .error (.transcriptionError "unused"),
   (fun _ => .ok " Prova questo. "), fun _ => .completed 0 ""⟩

/-- A typed turn on which the chat backend raises a connection error. -/
def envC2 : TurnEnv :=
  ⟨"ciao", "persona", .error (.deviceError "unused"),
   .error (.transcriptionError "unused"),
   (fun _ => .error (.generationError "connection refused")),
   fun _ => .completed 0 ""⟩

/-- A fully successful voice turn: empty console line, recording writes a
WAV, recognition yields one segment, reply and synthesis succeed. -/
def envC4 : TurnEnv :=
  ⟨"", "persona", .ok "data/audio_raw/rec_1.wav",
   .ok [⟨" Mi sento bloccato. ", 0, 6⟩],
   (fun _ => .ok " Prova questo. "), fun _ => .completed 0 ""⟩

/-- An uppercase exit command. -/
def envC7 : TurnEnv :=
  ⟨"QUIT", "persona", .ok "data/audio_raw/rec_2.wav",
   .ok [⟨"ciao", 0, 6⟩],
   (fun _ => .ok " Prova questo. "), fun _ => .completed 0 ""⟩

/-- A whitespace-only console line, with a successful voice pipeline. -/
def envC10 : TurnEnv :=
  ⟨"   ", "persona", .ok "data/audio_raw/rec_3.wav",
   .ok [⟨"ciao", 0, 6⟩],
   (fun _ => .ok " Prova questo. "), fun _ => .completed 0 ""⟩

/-- An exit keyword surrounded by whitespace. -/
def envC10b : TurnEnv :=
  ⟨" exit  ", "persona", .ok "data/audio_raw/rec_4.wav",
   .ok [⟨"ciao", 0, 6⟩],
   (fun _ => .ok " Prova questo. "), fun _ => .completed 0 ""⟩

/-! ### Helper lemmas -/

/-- Events a `speak` call can emit: only its own temp-file bookkeeping,
the synthesis subprocess call, and playback. -/
def isSpeakEv : Ev → Prop := fun e =>
  match e with
  | .createFile (.synthTxt _) => True
  | .createFile (.synthWav _) => True
  | .synthCall _ _ => True
  | .deleteFile (.synthTxt _) => True
  | .deleteFile (.synthWav _) => True
  | .playCall _ => True
  | _ => False

lemma speakRun_events (call : Nat) (text : String) (s : SynthStep) :
    ∀ e ∈ (speakRun call text s).1, isSpeakEv e := by
  intro e he
  unfold speakRun at he
  split at he
  · simp at he
  · rcases s with _ | ⟨rc, stderr⟩
    · simp at he
      rcases he with rfl | rfl | rfl <;> trivial
    · simp only at he
      split at he <;> simp at he <;>
        rcases he with rfl | rfl | rfl | rfl | rfl | rfl <;> trivial

lemma replyCall_not_in_speakRun (call : Nat) (text : String) (s : SynthStep)
    (u : String) : Ev.replyCall u ∉ (speakRun call text s).1 := by
  intro h
  exact (speakRun_events call text s _ h).elim

lemma deleteRecWav_not_in_speakRun (call : Nat) (text : String) (s : SynthStep)
    (p : String) : Ev.deleteFile (.recWav p) ∉ (speakRun call text s).1 := by
  intro h
  exact (speakRun_events call text s _ h).elim

lemma turnReplyPhase_trace (env : TurnEnv) (evs0 : List Ev) (u : String) :
    (turnReplyPhase env evs0 u).1 = evs0 ++ (turnReplyPhase env [] u).1 := by
  unfold turnReplyPhase
  split
  · simp
  · simp only [coachReply, Except.map]
    rcases env.chatBackend (coachMessages env.systemPrompt u) with e | c
    · simp
    · rcases h1 : (speakRun 0 (pyStrip c) (env.synth 0)).2 with e1 | u1
      · simp [h1]
      · rcases h2 : (speakRun 1 (pyStrip c) (env.synth 1)).2 with e2 | u2 <;>
          simp [h1, h2]

lemma turnReplyPhase_mem (env : TurnEnv) (u : String) (e : Ev)
    (h : e ∈ (turnReplyPhase env [] u).1) :
    (∃ m, e = Ev.printMsg m) ∨ e = Ev.replyCall u ∨
      (∃ x, e = Ev.speakCall x) ∨ isSpeakEv e := by
  unfold turnReplyPhase at h
  split at h
  · simp at h
    exact Or.inl ⟨_, h⟩
  · simp only [coachReply, Except.map] at h
    rcases hb : env.chatBackend (coachMessages env.systemPrompt u) with er | c <;>
      rw [hb] at h
    · simp at h
      exact Or.inr (Or.inl h)
    · have hs1 := speakRun_events 0 (pyStrip c) (env.synth 0)
      have hs2 := speakRun_events 1 (pyStrip c) (env.synth 1)
      simp only [List.nil_append] at h
      rcases h1 : (speakRun 0 (pyStrip c) (env.synth 0)).2 with e1 | u1 <;> rw [h1] at h
      · simp at h
        rcases h with rfl | rfl | rfl | hm
        · exact Or.inr (Or.inl rfl)
        · exact Or.inl ⟨_, rfl⟩
        · exact Or.inr (Or.inr (Or.inl ⟨_, rfl⟩))
        · exact Or.inr (Or.inr (Or.inr (hs1 _ hm)))
      · rcases h2 : (speakRun 1 (pyStrip c) (env.synth 1)).2 with e2 | u2 <;> rw [h2] at h <;>
        · simp at h
          rcases h with rfl | rfl | rfl | hm | rfl | hm
          · exact Or.inr (Or.inl rfl)
          · exact Or.inl ⟨_, rfl⟩
          · exact Or.inr (Or.inr (Or.inl ⟨_, rfl⟩))
          · exact Or.inr (Or.inr (Or.inr (hs1 _ hm)))
          · exact Or.inr (Or.inr (Or.inl ⟨_, rfl⟩))
          · exact Or.inr (Or.inr (Or.inr (hs2 _ hm)))

lemma replyCall_turnReplyPhase (env : TurnEnv) (u v : String)
    (h : Ev.replyCall v ∈ (turnReplyPhase env [] u).1) : v = u := by
  rcases turnReplyPhase_mem env u _ h with ⟨m, hm⟩ | hm | ⟨x, hm⟩ | hm
  · exact Ev.noConfusion hm
  · injection hm
  · exact Ev.noConfusion hm
  · exact hm.elim

lemma turnReplyPhase_empty (env : TurnEnv) (evs0 : List Ev) :
    turnReplyPhase env evs0 "" =
      (evs0 ++ [Ev.printMsg "(Got empty input, try again)"], .continued) := by
  simp [turnReplyPhase]

lemma turnReplyPhase_genErr (env : TurnEnv) (evs0 : List Ev) (u : String)
    (e : AppErr) (hne : u ≠ "")
    (hb : env.chatBackend (coachMessages env.systemPrompt u) = .error e) :
    turnReplyPhase env evs0 u = (evs0 ++ [Ev.replyCall u], .raised e) := by
  simp [turnReplyPhase, hne, coachReply, Except.map, hb]

lemma turnReplyPhase_speak1Err (env : TurnEnv) (evs0 : List Ev) (u c : String)
    (e : AppErr) (hne : u ≠ "")
    (hb : env.chatBackend (coachMessages env.systemPrompt u) = .ok c)
    (h1 : (speakRun 0 (pyStrip c) (env.synth 0)).2 = .error e) :
    turnReplyPhase env evs0 u =
      (evs0 ++ [Ev.replyCall u, Ev.printMsg ("Coach: " ++ pyStrip c)] ++
        Ev.speakCall (pyStrip c) :: (speakRun 0 (pyStrip c) (env.synth 0)).1,
       .raised e) := by
  simp [turnReplyPhase, hne, coachReply, Except.map, hb, h1]

lemma turnReplyPhase_speak2Err (env : TurnEnv) (evs0 : List Ev) (u c : String)
    (e : AppErr) (hne : u ≠ "")
    (hb : env.chatBackend (coachMessages env.systemPrompt u) = .ok c)
    (h1 : (speakRun 0 (pyStrip c) (env.synth 0)).2 = .ok ())
    (h2 : (speakRun 1 (pyStrip c) (env.synth 1)).2 = .error e) :
    turnReplyPhase env evs0 u =
      (evs0 ++ [Ev.replyCall u, Ev.printMsg ("Coach: " ++ pyStrip c)] ++
        Ev.speakCall (pyStrip c) :: (speakRun 0 (pyStrip c) (env.synth 0)).1 ++
        Ev.speakCall (pyStrip c) :: (speakRun 1 (pyStrip c) (env.synth 1)).1,
       .raised e) := by
  simp [turnReplyPhase, hne, coachReply, Except.map, hb, h1, h2]

lemma turnReplyPhase_okAll (env : TurnEnv) (evs0 : List Ev) (u c : String)
    (hne : u ≠ "")
    (hb : env.chatBackend (coachMessages env.systemPrompt u) = .ok c)
    (h1 : (speakRun 0 (pyStrip c) (env.synth 0)).2 = .ok ())
    (h2 : (speakRun 1 (pyStrip c) (env.synth 1)).2 = .ok ()) :
    turnReplyPhase env evs0 u =
      (evs0 ++ [Ev.replyCall u, Ev.printMsg ("Coach: " ++ pyStrip c)] ++
        Ev.speakCall (pyStrip c) :: (speakRun 0 (pyStrip c) (env.synth 0)).1 ++
        Ev.speakCall (pyStrip c) :: (speakRun 1 (pyStrip c) (env.synth 1)).1,
       .continued) := by
  simp [turnReplyPhase, hne, coachReply, Except.map, hb, h1, h2]

lemma isExitInput_empty : isExitInput "" = false := by decide

lemma runTurn_exit (env : TurnEnv)
    (hex : isExitInput (pyStrip env.consoleLine) = true) :
    runTurn env = ([Ev.printMsg "Session ended."], .ended) := by
  simp [runTurn, hex]

lemma runTurn_typed (env : TurnEnv)
    (hex : isExitInput (pyStrip env.consoleLine) = false)
    (hne : pyStrip env.consoleLine ≠ "") :
    runTurn env = turnReplyPhase env [] (pyStrip env.consoleLine) := by
  simp [runTurn, hex, hne]

lemma runTurn_voice_recErr (env : TurnEnv) (e : AppErr)
    (hempty : pyStrip env.consoleLine = "")
    (hr : env.recordResult = .error e) :
    runTurn env = ([Ev.recordCall], .raised e) := by
  simp [runTurn, hempty, isExitInput_empty, hr]

lemma runTurn_voice_recogErr (env : TurnEnv) (p : String) (e : AppErr)
    (hempty : pyStrip env.consoleLine = "")
    (hr : env.recordResult = .ok p)
    (hg : env.recognizeResult = .error e) :
    runTurn env =
      ([Ev.recordCall, Ev.createFile (.recWav p), Ev.transcribeCall p],
       .raised e) := by
  simp [runTurn, hempty, isExitInput_empty, hr, hg]

lemma runTurn_voice_ok (env : TurnEnv) (p : String) (segs : List Segment)
    (hempty : pyStrip env.consoleLine = "")
    (hr : env.recordResult = .ok p)
    (hg : env.recognizeResult = .ok segs) :
    runTurn env =
      turnReplyPhase env
        [Ev.recordCall, Ev.createFile (.recWav p), Ev.transcribeCall p,
         Ev.printMsg ("[Transcript] " ++ transcribe segs)]
        (transcribe segs) := by
  simp [runTurn, hempty, isExitInput_empty, hr, hg]

lemma runTurn_mem (env : TurnEnv) (e : Ev) (h : e ∈ (runTurn env).1) :
    (∃ m, e = Ev.printMsg m) ∨ e = Ev.recordCall ∨
      (∃ p, e = Ev.createFile (.recWav p)) ∨ (∃ p, e = Ev.transcribeCall p) ∨
      (∃ v, e = Ev.replyCall v) ∨ (∃ x, e = Ev.speakCall x) ∨ isSpeakEv e := by
  by_cases hex : isExitInput (pyStrip env.consoleLine) = true
  · rw [runTurn_exit env hex] at h
    simp at h
    exact Or.inl ⟨_, h⟩
  · rw [Bool.not_eq_true] at hex
    by_cases hempty : pyStrip env.consoleLine = ""
    · rcases hr : env.recordResult with er | p
      · rw [runTurn_voice_recErr env er hempty hr] at h
        simp at h
        exact Or.inr (Or.inl h)
      · rcases hg : env.recognizeResult with eg | segs
        · rw [runTurn_voice_recogErr env p eg hempty hr hg] at h
          simp at h
          rcases h with rfl | rfl | rfl
          · exact Or.inr (Or.inl rfl)
          · exact Or.inr (Or.inr (Or.inl ⟨_, rfl⟩))
          · exact Or.inr (Or.inr (Or.inr (Or.inl ⟨_, rfl⟩)))
        · rw [runTurn_voice_ok env p segs hempty hr hg, turnReplyPhase_trace] at h
          rcases List.mem_append.1 h with hm | hm
          · simp at hm
            rcases hm with rfl | rfl | rfl | rfl
            · exact Or.inr (Or.inl rfl)
            · exact Or.inr (Or.inr (Or.inl ⟨_, rfl⟩))
            · exact Or.inr (Or.inr (Or.inr (Or.inl ⟨_, rfl⟩)))
            · exact Or.inl ⟨_, rfl⟩
          · rcases turnReplyPhase_mem env _ _ hm with ⟨m, hm⟩ | hm | ⟨x, hm⟩ | hm
            · exact Or.inl ⟨_, hm⟩
            · exact Or.inr (Or.inr (Or.inr (Or.inr (Or.inl ⟨_, hm⟩))))
            · exact Or.inr (Or.inr (Or.inr (Or.inr (Or.inr (Or.inl ⟨_, hm⟩)))))
            · exact Or.inr (Or.inr (Or.inr (Or.inr (Or.inr (Or.inr hm)))))
    · rw [runTurn_typed env hex hempty, turnReplyPhase_trace] at h
      rcases List.mem_append.1 h with hm | hm
      · simp at hm
      · rcases turnReplyPhase_mem env _ _ hm with ⟨m, hm⟩ | hm | ⟨x, hm⟩ | hm
        · exact Or.inl ⟨_, hm⟩
        · exact Or.inr (Or.inr (Or.inr (Or.inr (Or.inl ⟨_, hm⟩))))
        · exact Or.inr (Or.inr (Or.inr (Or.inr (Or.inr (Or.inl ⟨_, hm⟩)))))
        · exact Or.inr (Or.inr (Or.inr (Or.inr (Or.inr (Or.inr hm)))))

lemma recWav_never_deleted (env : TurnEnv) (p : String) :
    Ev.deleteFile (.recWav p) ∉ (runTurn env).1 := by
  intro h
  rcases runTurn_mem env _ h with
    ⟨m, hm⟩ | hm | ⟨q, hm⟩ | ⟨q, hm⟩ | ⟨v, hm⟩ | ⟨x, hm⟩ | hm
  · exact Ev.noConfusion hm
  · exact Ev.noConfusion hm
  · exact Ev.noConfusion hm
  · exact Ev.noConfusion hm
  · exact Ev.noConfusion hm
  · exact Ev.noConfusion hm
  · exact hm.elim

lemma speakRun_trace_pre (call : Nat) (text : String) (s : SynthStep)
    (hne : text ≠ "") :
    ∃ t, (speakRun call text s).1 =
      Ev.createFile (.synthTxt call) :: Ev.createFile (.synthWav call) ::
        Ev.synthCall call (pyStrip text) :: t := by
  have hb : (text == "") = false := by simp [hne]
  rcases s with _ | ⟨rc, stderr⟩
  · exact ⟨[], by simp [speakRun, hb]⟩
  · by_cases hrc : rc = 0
    · subst hrc
      exact ⟨[Ev.deleteFile (.synthTxt call), Ev.playCall call,
              Ev.deleteFile (.synthWav call)], by simp [speakRun, hb]⟩
    · exact ⟨[Ev.deleteFile (.synthTxt call)], by simp [speakRun, hb, hrc]⟩

/-! ### Claims -/

/-- Claim C1: the spec requires a normal turn (non-empty user text, reply
obtained) to pass through Generating and Speaking once and invoke
`Speaker.speak` exactly once with the reply. Evaluating the loop body on
a normal typed turn shows `CoachEngine.reply` is invoked once but
`tts.speak(reply)` is invoked twice with that reply: the source contains
the `tts.speak(reply)` call twice in immediate succession, so the claim
fails on the code (a duplicated-line bug in main.py). -/
theorem C1_normal_turn_speaks_twice :
    replyCalls (runTurn envC1).1 = 1 ∧
    speakCalls (runTurn envC1).1 = 2 ∧
    Ev.speakCall "Prova questo." ∈ (runTurn envC1).1 ∧
    (runTurn envC1).2 = .continued := by decide

/-- Claim C2 (counterexample): on a turn where the chat backend raises,
the loop does not catch the error and does not continue to the next turn:
the exception propagates and terminates the loop. -/
theorem C2_counterexample :
    (runTurn envC2).2 = .raised (.generationError "connection refused") ∧
    (runTurn envC2).2 ≠ .continued ∧
    runLoop [envC2] =
      ((runTurn envC2).1, .raised (.generationError "connection refused")) := by
  decide

/-- Claim C2 (amended): the conversation loop has no try/except, so an
error raised by the recorder, the recognition backend, the chat backend
or the synthesis step during a turn is not caught at the loop level and
is not reported as a message: it propagates out of the turn and
terminates the loop instead of returning to AwaitingInput. -/
theorem C2_amended_errors_uncaught (env : TurnEnv) (rest : List TurnEnv)
    (e : AppErr)
    (hex : isExitInput (pyStrip env.consoleLine) = false)
    (h : (pyStrip env.consoleLine = "" ∧ env.recordResult = .error e) ∨
         (pyStrip env.consoleLine = "" ∧ (∃ p, env.recordResult = .ok p) ∧
            env.recognizeResult = .error e) ∨
         (pyStrip env.consoleLine ≠ "" ∧
            env.chatBackend
              (coachMessages env.systemPrompt (pyStrip env.consoleLine)) =
              .error e) ∨
         (pyStrip env.consoleLine ≠ "" ∧
            (∃ c, env.chatBackend
                (coachMessages env.systemPrompt (pyStrip env.consoleLine)) =
                .ok c ∧
              (speakRun 0 (pyStrip c) (env.synth 0)).2 = .error e))) :
    (runTurn env).2 = .raised e ∧
    runLoop (env :: rest) = ((runTurn env).1, .raised e) := by
  have hmain : (runTurn env).2 = .raised e := by
    rcases h with ⟨hempty, hr⟩ | ⟨hempty, ⟨p, hp⟩, hg⟩ | ⟨hne, hb⟩ |
      ⟨hne, c, hb, h1⟩
    · rw [runTurn_voice_recErr env e hempty hr]
    · rw [runTurn_voice_recogErr env p e hempty hp hg]
    · rw [runTurn_typed env hex hne, turnReplyPhase_genErr env [] _ e hne hb]
    · rw [runTurn_typed env hex hne,
          turnReplyPhase_speak1Err env [] _ c e hne hb h1]
  refine ⟨hmain, ?_⟩
  rcases hR : runTurn env with ⟨evs, o⟩
  rw [hR] at hmain
  simp only at hmain
  subst hmain
  simp [runLoop, hR]

/-- Claim C2 (witness for the amended theorem): a concrete typed turn on
which the chat backend raises terminates the loop with that error. -/
theorem C2_witness :
    (runTurn envC2).2 = .raised (.generationError "connection refused") ∧
    runLoop [envC2] =
      ((runTurn envC2).1, .raised (.generationError "connection refused")) :=
  C2_amended_errors_uncaught envC2 [] (.generationError "connection refused")
    (by decide)
    (Or.inr (Or.inr (Or.inl ⟨by decide, by decide⟩)))

/-- Claim C3: for every non-empty user text, `CoachEngine.reply` sends
exactly two messages — system with the configured prompt, then user with
the text — and returns the backend's response content stripped of
surrounding whitespace, otherwise unmodified. -/
theorem C3_reply_messages (systemPrompt : String)
    (backend : List Message → Except AppErr String) (userText : String)
    (_hne : userText ≠ "") :
    (coachReply systemPrompt backend userText).1 =
      [⟨"system", systemPrompt⟩, ⟨"user", userText⟩] ∧
    ((coachReply systemPrompt backend userText).1).length = 2 ∧
    ∀ c, backend (coachMessages systemPrompt userText) = .ok c →
      (coachReply systemPrompt backend userText).2 = .ok (pyStrip c) := by
  refine ⟨rfl, rfl, fun c hc => ?_⟩
  simp [coachReply, Except.map, hc]

/-- Claim C3 (witness): evaluating `reply` on concrete inputs. -/
theorem C3_witness :
    (coachReply "persona" (fun _ => Except.ok "  Ciao!  ") "hi").1 =
      [⟨"system", "persona"⟩, ⟨"user", "hi"⟩] ∧
    (coachReply "persona" (fun _ => Except.ok "  Ciao!  ") "hi").2 =
      .ok "Ciao!" := by
  have h := C3_reply_messages "persona" (fun _ => Except.ok "  Ciao!  ") "hi"
    (by decide)
  refine ⟨h.1, ?_⟩
  rw [h.2.2 "  Ciao!  " rfl]
  decide

/-- Claim C5 (counterexample): if the synthesis subprocess invocation
itself raises (an exit path of `speak`), the temporary input text file is
created but never deleted — deletion is not guaranteed on every exit
path. -/
theorem C5_counterexample :
    (speakRun 0 "ciao" .raises).2 = .error .subprocessOsError ∧
    Ev.createFile (.synthTxt 0) ∈ (speakRun 0 "ciao" .raises).1 ∧
    Ev.deleteFile (.synthTxt 0) ∉ (speakRun 0 "ciao" .raises).1 := by decide

/-- Claim C5 (amended): for non-empty text the temp input text file is
deleted whenever the synthesis subprocess completes — both on normal
return and on the SynthesisError path — but if the subprocess invocation
itself raises a different exception, `speak` exits without deleting it:
the `os.unlink` is not wrapped in guaranteed cleanup. -/
theorem C5_amended_txt_cleanup (call : Nat) (text : String)
    (hne : text ≠ "") :
    (∀ rc stderr,
       Ev.deleteFile (.synthTxt call) ∈
         (speakRun call text (.completed rc stderr)).1) ∧
    (Ev.createFile (.synthTxt call) ∈ (speakRun call text .raises).1 ∧
     Ev.deleteFile (.synthTxt call) ∉ (speakRun call text .raises).1) := by
  have hb : (text == "") = false := by simp [hne]
  refine ⟨fun rc stderr => ?_, ?_, ?_⟩
  · by_cases hrc : rc = 0
    · subst hrc
      simp [speakRun, hb]
    · simp [speakRun, hb, hrc]
  · simp [speakRun, hb]
  · simp [speakRun, hb]

/-- Claim C5 (witness): the amended theorem at concrete inputs. -/
theorem C5_witness :
    Ev.deleteFile (.synthTxt 2) ∈ (speakRun 2 "ok" (.completed 1 "boom")).1 ∧
    Ev.deleteFile (.synthTxt 2) ∉ (speakRun 2 "ok" .raises).1 :=
  ⟨(C5_amended_txt_cleanup 2 "ok" (by decide)).1 1 "boom",
   (C5_amended_txt_cleanup 2 "ok" (by decide)).2.2⟩

/-- Claim C6 (counterexample): `speak` on the whitespace-only text " "
is not a no-op: the guard is `if not text`, which only catches the empty
string, so a temp file is created and the synthesis subprocess is
invoked (with the stripped, empty text as its input). -/
theorem C6_counterexample :
    Ev.synthCall 0 "" ∈ (speakRun 0 " " (.completed 0 "")).1 ∧
    Ev.createFile (.synthTxt 0) ∈ (speakRun 0 " " (.completed 0 "")).1 ∧
    (speakRun 0 " " (.completed 0 "")).1 ≠ [] := by decide

/-- Claim C6 (amended): only empty (Python-falsy) text is a guaranteed
no-op — `speak ""` returns normally with no subprocess invocation, no
playback and no file creation; whitespace-only text is not special-cased:
for any non-empty text `speak` creates the temp file and invokes the
synthesis subprocess with the stripped text as input. -/
theorem C6_amended_noop_only_empty (call : Nat) (s : SynthStep)
    (text : String) (hne : text ≠ "") :
    speakRun call "" s = ([], .ok ()) ∧
    Ev.synthCall call (pyStrip text) ∈ (speakRun call text s).1 ∧
    Ev.createFile (.synthTxt call) ∈ (speakRun call text s).1 := by
  obtain ⟨t, ht⟩ := speakRun_trace_pre call text s hne
  refine ⟨by simp [speakRun], ?_, ?_⟩ <;> rw [ht] <;> simp

/-- Claim C6 (witness): the amended theorem at concrete inputs. -/
theorem C6_witness :
    speakRun 1 "" (.completed 0 "") = ([], .ok ()) ∧
    Ev.synthCall 1 (pyStrip " ") ∈ (speakRun 1 " " (.completed 0 "")).1 :=
  ⟨(C6_amended_noop_only_empty 1 (.completed 0 "") " " (by decide)).1,
   (C6_amended_noop_only_empty 1 (.completed 0 "") " " (by decide)).2.1⟩

/-- Claim C7: a console line matching "quit" or "exit" case-insensitively
ends the loop immediately: the turn produces only the session-ended
message, the loop terminates, and no recording, transcription, reply or
speech call happens for that input. -/
theorem C7_exit_terminates_immediately (env : TurnEnv)
    (h : pyLower (pyStrip env.consoleLine) = "quit" ∨
         pyLower (pyStrip env.consoleLine) = "exit") :
    runTurn env = ([Ev.printMsg "Session ended."], .ended) ∧
    (∀ rest, runLoop (env :: rest) = ([Ev.printMsg "Session ended."], .ended)) ∧
    Ev.recordCall ∉ (runTurn env).1 ∧
    (∀ w, Ev.transcribeCall w ∉ (runTurn env).1) ∧
    (∀ u, Ev.replyCall u ∉ (runTurn env).1) ∧
    (∀ x, Ev.speakCall x ∉ (runTurn env).1) := by
  have hex : isExitInput (pyStrip env.consoleLine) = true := by
    rcases h with h | h <;> simp [isExitInput, h]
  have hrt := runTurn_exit env hex
  refine ⟨hrt, fun rest => ?_, ?_, fun w => ?_, fun u => ?_, fun x => ?_⟩ <;>
    simp [runLoop, hrt]

/-- Claim C7 (witness): the uppercase line "QUIT" ends the session. -/
theorem C7_witness :
    runTurn envC7 = ([Ev.printMsg "Session ended."], .ended) ∧
    Ev.recordCall ∉ (runTurn envC7).1 :=
  ⟨(C7_exit_terminates_immediately envC7 (Or.inl (by decide))).1,
   (C7_exit_terminates_immediately envC7 (Or.inl (by decide))).2.2.1⟩

/-- Claim C9: `transcribe` returns the segment texts, each stripped of
surrounding whitespace, joined by single spaces, with the overall result
stripped; it returns the empty string when the backend yields no
segments. -/
theorem C9_transcribe_join (segments : List Segment) :
    transcribe segments =
      pyStrip (pyJoin " " (segments.map fun seg => pyStrip seg.text)) ∧
    transcribe [] = "" ∧
    (∀ a b : String, pyJoin " " [a, b] = a ++ " " ++ b) ∧
    (∀ s : Segment, ∀ rest : List Segment, rest ≠ [] →
      pyJoin " " ((s :: rest).map fun seg => pyStrip seg.text) =
        pyStrip s.text ++ " " ++
          pyJoin " " (rest.map fun seg => pyStrip seg.text)) := by
  refine ⟨rfl, rfl, fun a b => rfl, fun s rest hne => ?_⟩
  rcases rest with _ | ⟨r, rs⟩
  · exact absurd rfl hne
  · rfl

/-- Claim C9 (witness): the join law at a concrete two-segment input. -/
theorem C9_witness :
    transcribe [] = "" ∧
    pyJoin " "
        (([⟨" a ", 0, 1⟩, ⟨"b ", 1, 2⟩] : List Segment).map
          fun seg => pyStrip seg.text) =
      pyStrip " a " ++ " " ++
        pyJoin " " (([⟨"b ", 1, 2⟩] : List Segment).map
          fun seg => pyStrip seg.text) :=
  ⟨(C9_transcribe_join []).2.1,
   (C9_transcribe_join [⟨" a ", 0, 1⟩, ⟨"b ", 1, 2⟩]).2.2.2
     ⟨" a ", 0, 1⟩ [⟨"b ", 1, 2⟩] (by decide)⟩

lemma pyStrip_empty : pyStrip "" = "" := by decide

/-- Claim C4 (counterexample): a fully successful voice turn — recording,
transcription, reply and both synthesis calls all succeed — still ends
with the recorded input WAV existing on disk: `stt.record_wav` stores it
under `audio_dir` and no code path deletes it. -/
theorem C4_counterexample :
    (runTurn envC4).2 = .continued ∧
    leaked (runTurn envC4).1 (.recWav "data/audio_raw/rec_1.wav") := by
  refine ⟨by decide, by decide, by decide⟩

/-- Claim C4 (amended): in a successful voice turn the synthesis temp
files (the input text file and the output WAV of each speak call) do not
survive the turn, but the recorded input WAV is never deleted by any code
path and is still on disk at the end of the turn. -/
theorem C4_amended_recWav_leaks (env : TurnEnv) (p : String)
    (segs : List Segment) (c st0 st1 : String)
    (hempty : pyStrip env.consoleLine = "")
    (hr : env.recordResult = .ok p)
    (hg : env.recognizeResult = .ok segs)
    (hb : env.chatBackend (coachMessages env.systemPrompt (transcribe segs)) =
      .ok c)
    (h0 : env.synth 0 = .completed 0 st0)
    (h1 : env.synth 1 = .completed 0 st1) :
    (∀ q, Ev.deleteFile (.recWav q) ∉ (runTurn env).1) ∧
    leaked (runTurn env).1 (.recWav p) ∧
    ¬ leaked (runTurn env).1 (.synthTxt 0) ∧
    ¬ leaked (runTurn env).1 (.synthWav 0) ∧
    ¬ leaked (runTurn env).1 (.synthTxt 1) ∧
    ¬ leaked (runTurn env).1 (.synthWav 1) := by
  have hturn := runTurn_voice_ok env p segs hempty hr hg
  have hcreate : Ev.createFile (.recWav p) ∈ (runTurn env).1 := by
    rw [hturn, turnReplyPhase_trace]
    simp
  refine ⟨fun q => recWav_never_deleted env q,
    ⟨hcreate, recWav_never_deleted env p⟩, ?_, ?_, ?_, ?_⟩ <;>
  · by_cases hu : transcribe segs = ""
    · rw [hturn, hu, turnReplyPhase_empty]
      simp [leaked]
    · by_cases hrep : pyStrip c = ""
      · have hok0 : (speakRun 0 (pyStrip c) (env.synth 0)).2 = .ok () := by
          rw [hrep]; simp [speakRun]
        have hok1 : (speakRun 1 (pyStrip c) (env.synth 1)).2 = .ok () := by
          rw [hrep]; simp [speakRun]
        rw [hturn, turnReplyPhase_okAll env _ _ c hu hb hok0 hok1]
        simp [leaked, hrep, speakRun]
      · have hbne : (pyStrip c == "") = false := by simp [hrep]
        have hok0 : (speakRun 0 (pyStrip c) (env.synth 0)).2 = .ok () := by
          rw [h0]; simp [speakRun, hbne]
        have hok1 : (speakRun 1 (pyStrip c) (env.synth 1)).2 = .ok () := by
          rw [h1]; simp [speakRun, hbne]
        rw [hturn, turnReplyPhase_okAll env _ _ c hu hb hok0 hok1, h0, h1]
        simp [leaked, speakRun, hbne]

/-- Claim C4 (witness for the amended theorem): the successful voice turn
`envC4` leaks its recorded WAV but not the first synthesis temp file. -/
theorem C4_witness :
    leaked (runTurn envC4).1 (.recWav "data/audio_raw/rec_1.wav") ∧
    ¬ leaked (runTurn envC4).1 (.synthTxt 0) :=
  ⟨(C4_amended_recWav_leaks envC4 "data/audio_raw/rec_1.wav"
      [⟨" Mi sento bloccato. ", 0, 6⟩] " Prova questo. " "" ""
      (by decide) (by decide) (by decide) (by decide) (by decide)
      (by decide)).2.1,
   (C4_amended_recWav_leaks envC4 "data/audio_raw/rec_1.wav"
      [⟨" Mi sento bloccato. ", 0, 6⟩] " Prova questo. " "" ""
      (by decide) (by decide) (by decide) (by decide) (by decide)
      (by decide)).2.2.1⟩

/-- Claim C8: `TextToSpeech.__init__` validates that the synthesis
executable and both voice-model artifact files exist, raising
MissingAssetError before returning if any of the three is absent; the
program constructs the Speaker before entering the loop, so with a
missing asset the program fails at startup and no conversation turn ever
begins. -/
theorem C8_init_validates_assets (fs : List String) (d n : String)
    (envs : List TurnEnv) :
    ((isfile fs (d ++ "/piper.exe") = true ∧
      isfile fs (d ++ "/" ++ n ++ ".onnx") = true ∧
      isfile fs (d ++ "/" ++ n ++ ".onnx.json") = true) →
       ∃ t, ttsInit fs d n = .ok t ∧
         program fs d n envs = .ok (runLoop envs)) ∧
    (¬ (isfile fs (d ++ "/piper.exe") = true ∧
        isfile fs (d ++ "/" ++ n ++ ".onnx") = true ∧
        isfile fs (d ++ "/" ++ n ++ ".onnx.json") = true) →
       ∃ m, ttsInit fs d n = .error (.missingAsset m) ∧
         program fs d n envs = .error (.missingAsset m)) := by
  constructor
  · rintro ⟨h1, h2, h3⟩
    have hinit : ttsInit fs d n =
        .ok ⟨d, d ++ "/piper.exe", d ++ "/" ++ n ++ ".onnx",
             d ++ "/" ++ n ++ ".onnx.json"⟩ := by
      simp [ttsInit, h1, h2, h3]
    exact ⟨_, hinit, by simp [program, hinit]⟩
  · intro h
    cases hfe : isfile fs (d ++ "/piper.exe") with
    | false =>
      have hinit : ttsInit fs d n =
          .error (.missingAsset ("piper.exe non trovato in " ++ d)) := by
        simp [ttsInit, hfe]
      exact ⟨_, hinit, by simp [program, hinit]⟩
    | true =>
      cases hfm : isfile fs (d ++ "/" ++ n ++ ".onnx") with
      | false =>
        have hinit : ttsInit fs d n =
            .error (.missingAsset
              ("Voce non trovata: " ++ (d ++ "/" ++ n ++ ".onnx"))) := by
          simp [ttsInit, hfe, hfm]
        exact ⟨_, hinit, by simp [program, hinit]⟩
      | true =>
        cases hfc : isfile fs (d ++ "/" ++ n ++ ".onnx.json") with
        | false =>
          have hinit : ttsInit fs d n =
              .error (.missingAsset
                ("Voce non trovata: " ++ (d ++ "/" ++ n ++ ".onnx.json"))) := by
            simp [ttsInit, hfe, hfm, hfc]
          exact ⟨_, hinit, by simp [program, hinit]⟩
        | true => exact absurd ⟨hfe, hfm, hfc⟩ h

/-- Claim C8 (witness): with all three assets on disk initialization
succeeds and the loop runs; with an empty file system it fails with
MissingAssetError and the program never enters the loop. -/
theorem C8_witness :
    (∃ t, ttsInit
        ["models/piper/piper.exe", "models/piper/en_US-amy-medium.onnx",
         "models/piper/en_US-amy-medium.onnx.json"]
        "models/piper" "en_US-amy-medium" = .ok t ∧
      program
        ["models/piper/piper.exe", "models/piper/en_US-amy-medium.onnx",
         "models/piper/en_US-amy-medium.onnx.json"]
        "models/piper" "en_US-amy-medium" [] = .ok (runLoop [])) ∧
    (∃ m, ttsInit [] "models/piper" "en_US-amy-medium" =
        .error (.missingAsset m) ∧
      program [] "models/piper" "en_US-amy-medium" [] =
        .error (.missingAsset m)) :=
  ⟨(C8_init_validates_assets
      ["models/piper/piper.exe", "models/piper/en_US-amy-medium.onnx",
       "models/piper/en_US-amy-medium.onnx.json"]
      "models/piper" "en_US-amy-medium" []).1
      ⟨by decide, by decide, by decide⟩,
   (C8_init_validates_assets [] "models/piper" "en_US-amy-medium" []).2
      (by decide)⟩

/-- Claim C10: a console line of only whitespace is stripped and treated
exactly like an empty line — the turn equals the turn on the empty line,
recording is triggered, transcription follows on the recorded WAV, and
any text sent to the reply engine is a transcript, never the whitespace
line; an exit keyword surrounded by whitespace still ends the loop. -/
theorem C10_whitespace_stripped (env : TurnEnv) :
    (pyStrip env.consoleLine = "" →
      runTurn env = runTurn ⟨"", env.systemPrompt, env.recordResult,
        env.recognizeResult, env.chatBackend, env.synth⟩ ∧
      Ev.recordCall ∈ (runTurn env).1 ∧
      (∀ p, env.recordResult = .ok p →
        Ev.transcribeCall p ∈ (runTurn env).1) ∧
      (∀ v, Ev.replyCall v ∈ (runTurn env).1 →
        ∃ segs, env.recognizeResult = .ok segs ∧ v = transcribe segs)) ∧
    ((pyLower (pyStrip env.consoleLine) = "quit" ∨
      pyLower (pyStrip env.consoleLine) = "exit") →
      (runTurn env).2 = .ended) := by
  constructor
  · intro h
    have hirrel : ∀ evs0 u, turnReplyPhase env evs0 u =
        turnReplyPhase ⟨"", env.systemPrompt, env.recordResult,
          env.recognizeResult, env.chatBackend, env.synth⟩ evs0 u :=
      fun _ _ => rfl
    refine ⟨by simp [runTurn, h, pyStrip_empty, hirrel], ?_, ?_, ?_⟩
    · rcases hr : env.recordResult with er | p
      · rw [runTurn_voice_recErr env er h hr]
        simp
      · rcases hg : env.recognizeResult with eg | segs
        · rw [runTurn_voice_recogErr env p eg h hr hg]
          simp
        · rw [runTurn_voice_ok env p segs h hr hg, turnReplyPhase_trace]
          simp
    · intro p hp
      rcases hg : env.recognizeResult with eg | segs
      · rw [runTurn_voice_recogErr env p eg h hp hg]
        simp
      · rw [runTurn_voice_ok env p segs h hp hg, turnReplyPhase_trace]
        simp
    · intro v hv
      rcases hr : env.recordResult with er | p
      · rw [runTurn_voice_recErr env er h hr] at hv
        simp at hv
      · rcases hg : env.recognizeResult with eg | segs
        · rw [runTurn_voice_recogErr env p eg h hr hg] at hv
          simp at hv
        · rw [runTurn_voice_ok env p segs h hr hg, turnReplyPhase_trace] at hv
          rcases List.mem_append.1 hv with hm | hm
          · simp at hm
          · exact ⟨segs, rfl, replyCall_turnReplyPhase env _ v hm⟩
  · intro h
    have hex : isExitInput (pyStrip env.consoleLine) = true := by
      rcases h with h | h <;> simp [isExitInput, h]
    rw [runTurn_exit env hex]

/-- Claim C10 (witness): the whitespace-only line "   " records, and the
padded exit line " exit  " ends the loop. -/
theorem C10_witness :
    Ev.recordCall ∈ (runTurn envC10).1 ∧
    (runTurn envC10b).2 = .ended :=
  ⟨((C10_whitespace_stripped envC10).1 (by decide)).2.1,
   (C10_whitespace_stripped envC10b).2 (Or.inr (by decide))⟩

end AICoach
